import Mathlib

/-!
# Offloaded raw TX shim of the nRF70 Wi-Fi driver

Shallow embedding of

* `drivers/wifi/nrfwifi/off_raw_tx/inc/off_raw_tx.h` (the driver record),
* `include/zephyr/drivers/wifi/nrfwifi/off_raw_tx/off_raw_tx_api.h` (the
  configuration record and its enumerations),
* `drivers/wifi/nrfwifi/off_raw_tx/src/off_raw_tx_api.c` (the five entry points).

The FMAC and OSAL libraries are external.  Every call into them is recorded
in a trace, and what such a call returns is an input of the embedded function.
The external functions are taken not to write to the globals of this file.
-/

namespace OffRawTx

/-! ## Data model -/

/-- Pointer values.  Besides `NULL` the source takes three addresses
(`&nrf_wifi_os_zep_ops`, `&off_raw_tx_priv`, `&off_raw_tx_drv_priv.rpu_ctx_zep`);
every other pointer is an object handed out by the external libraries. -/
inductive Ptr where
  | null
  | addr_nrf_wifi_os_zep_ops
  | addr_off_raw_tx_priv
  | addr_rpu_ctx_zep
  | obj (id : Nat)
  deriving DecidableEq, Repr

/-- Modelled from the spec: `enum nrf_wifi_status` is declared in the FMAC
headers, which are not part of the sources.  The API header documents `0` as
the value returned on success, and `nrf70_off_raw_tx_init` returns `status`
itself on its success path, so the success enumerator is `0`. -/
def NRF_WIFI_STATUS_SUCCESS : Int := 0

/-- Modelled from the spec: the failure enumerator of `enum nrf_wifi_status`
(declared outside the sources); the entry points report failure as `-1`. -/
def NRF_WIFI_STATUS_FAIL : Int := -1

/-- The `enum nrf_wifi_off_raw_tx_rate` of the API header. -/
inductive nrf_wifi_off_raw_tx_rate where
  | RATE_1M | RATE_2M | RATE_5_5M | RATE_11M | RATE_6M | RATE_9M | RATE_12M
  | RATE_18M | RATE_24M | RATE_36M | RATE_48M | RATE_54M
  | RATE_MCS0 | RATE_MCS1 | RATE_MCS2 | RATE_MCS3 | RATE_MCS4 | RATE_MCS5
  | RATE_MCS6 | RATE_MCS7 | RATE_MAX
  deriving DecidableEq, Repr

/-- The `enum nrf_wifi_off_raw_tx_he_gi` of the API header. -/
inductive nrf_wifi_off_raw_tx_he_gi where
  | HE_GI_800NS | HE_GI_1600NS | HE_GI_3200NS | HE_GI_MAX
  deriving DecidableEq, Repr

/-- The `enum nrf_wifi_off_raw_tx_he_ltf` of the API header. -/
inductive nrf_wifi_off_raw_tx_he_ltf where
  | HE_LTF_3200NS | HE_LTF_6400NS | HE_LTF_12800NS | HE_LTF_MAX
  deriving DecidableEq, Repr

/-- The `enum nrf_wifi_off_raw_tx_tput_mode` of the API header. -/
inductive nrf_wifi_off_raw_tx_tput_mode where
  | TPUT_MODE_LEGACY | TPUT_MODE_HT | TPUT_MODE_VHT | TPUT_MODE_HE_SU
  | TPUT_MODE_HE_ER_SU | TPUT_MODE_HE_TB | TPUT_MODE_MAX
  deriving DecidableEq, Repr

/-- The `struct nrf_wifi_off_raw_tx_conf` of the API header.  The unsigned
fields are naturals: the shim does no arithmetic on them. -/
structure nrf_wifi_off_raw_tx_conf where
  period_us : Nat
  chan : Nat
  short_preamble : Bool
  num_retries : Nat
  tput_mode : nrf_wifi_off_raw_tx_tput_mode
  rate : nrf_wifi_off_raw_tx_rate
  he_gi_type : Nat
  he_ltf : Nat
  pkt : Ptr
  pkt_len : Nat
  deriving DecidableEq, Repr

/-- The `struct nrf_wifi_ctx_zep` of `off_raw_tx.h`. -/
structure nrf_wifi_ctx_zep where
  drv_priv_zep : Ptr
  rpu_ctx : Ptr
  deriving DecidableEq, Repr

/-- The `struct nrf_wifi_off_raw_tx_drv_priv` of `off_raw_tx.h`. -/
structure nrf_wifi_off_raw_tx_drv_priv where
  fmac_priv : Ptr
  rpu_ctx_zep : nrf_wifi_ctx_zep
  deriving DecidableEq, Repr

/-- An object that `off_raw_tx_api.c` names without a declaration in the
sources; the only member the source uses is `fmac_priv`. -/
structure drv_priv_zep_obj where
  fmac_priv : Ptr
  deriving DecidableEq, Repr

/-- The file-scope objects `off_raw_tx_api.c` reads or writes.
`off_raw_tx_drv_priv` is the one defined in the file.
`off_raw_tx_drv_priv_zep` (written and tested in `nrf70_off_raw_tx_init`) and
`rpu_drv_priv_zep` (read in `nrf70_off_raw_tx_deinit`) are spelled differently
in the source and have no declaration there; they are kept as objects of
their own. -/
structure Globals where
  off_raw_tx_drv_priv : nrf_wifi_off_raw_tx_drv_priv
  off_raw_tx_drv_priv_zep : drv_priv_zep_obj
  rpu_drv_priv_zep : drv_priv_zep_obj
  deriving DecidableEq, Repr

/-- The globals at program start: static storage is zero-initialised. -/
def Globals.zeroed : Globals :=
  { off_raw_tx_drv_priv :=
      { fmac_priv := Ptr.null,
        rpu_ctx_zep := { drv_priv_zep := Ptr.null, rpu_ctx := Ptr.null } },
    off_raw_tx_drv_priv_zep := { fmac_priv := Ptr.null },
    rpu_drv_priv_zep := { fmac_priv := Ptr.null } }

/-- One call leaving the shim, with the arguments that identify objects.
The build-time arguments of `nrf_wifi_fmac_dev_init_offloaded_raw_tx`
(sleep type, calibration, band, beamforming, parameter blocks) and the
message texts of the logging calls are not recorded. -/
inductive Call where
  | nrf_wifi_osal_init (ops : Ptr)
  | nrf_wifi_fmac_init_offloaded_raw_tx
  | nrf_wifi_fmac_dev_add (fmac_priv : Ptr) (os_dev_ctx : Ptr)
  | nrf_wifi_fw_load (rpu_ctx : Ptr)
  | nrf_wifi_fmac_ver_get (rpu_ctx : Ptr)
  | configure_tx_pwr_settings
  | configure_board_dep_params
  | nrf_wifi_fmac_dev_init_offloaded_raw_tx (rpu_ctx : Ptr)
  | nrf_wifi_fmac_dev_rem_offloaded_raw_tx (rpu_ctx : Ptr)
  | nrf_wifi_fmac_deinit_offloaded_raw_tx (fmac_priv : Ptr)
  | nrf_wifi_osal_deinit
  | nrf_wifi_offloaded_raw_tx_conf (rpu_ctx : Ptr) (conf : nrf_wifi_off_raw_tx_conf)
  | nrf_wifi_offloaded_raw_tx_start (rpu_ctx : Ptr)
  | nrf_wifi_offloaded_raw_tx_stop (rpu_ctx : Ptr)
  | LOG_ERR
  | LOG_DBG (fw_ver : Nat)
  | nrf_wifi_osal_log_err
  deriving DecidableEq, Repr

/-- What an `int` entry point leaves behind: its return value, the globals
and the calls it made, oldest first. -/
structure Result where
  ret : Int
  globals : Globals
  trace : List Call
  deriving DecidableEq, Repr

/-- What a `void` entry point leaves behind. -/
structure Effect where
  globals : Globals
  trace : List Call
  deriving DecidableEq, Repr

/-- What the external bring-up functions return when
`nrf70_off_raw_tx_init` calls them. -/
structure InitOutcomes where
  fmac_init : Ptr
  dev_add : Ptr
  fw_load : Int
  ver_get : Int
  fw_ver : Nat
  dev_init : Int
  deriving DecidableEq, Repr

/-! ## Accesses through the local pointer `rpu_ctx_zep` -/

/-- The assignment `rpu_ctx_zep->drv_priv_zep = v`; it is defined only when the
local pointer holds `&off_raw_tx_drv_priv.rpu_ctx_zep`. -/
def store_drv_priv_zep (rpu_ctx_zep : Ptr) (v : Ptr) (g : Globals) : Option Globals :=
  match rpu_ctx_zep with
  | Ptr.addr_rpu_ctx_zep =>
    some { g with off_raw_tx_drv_priv :=
      { g.off_raw_tx_drv_priv with rpu_ctx_zep :=
        { g.off_raw_tx_drv_priv.rpu_ctx_zep with drv_priv_zep := v } } }
  | _ => none

/-- The assignment `rpu_ctx_zep->rpu_ctx = v`; it is defined only when the
local pointer holds `&off_raw_tx_drv_priv.rpu_ctx_zep`. -/
def store_rpu_ctx (rpu_ctx_zep : Ptr) (v : Ptr) (g : Globals) : Option Globals :=
  match rpu_ctx_zep with
  | Ptr.addr_rpu_ctx_zep =>
    some { g with off_raw_tx_drv_priv :=
      { g.off_raw_tx_drv_priv with rpu_ctx_zep :=
        { g.off_raw_tx_drv_priv.rpu_ctx_zep with rpu_ctx := v } } }
  | _ => none

/-- The read `rpu_ctx_zep->rpu_ctx`. -/
def load_rpu_ctx (rpu_ctx_zep : Ptr) (g : Globals) : Option Ptr :=
  match rpu_ctx_zep with
  | Ptr.addr_rpu_ctx_zep => some g.off_raw_tx_drv_priv.rpu_ctx_zep.rpu_ctx
  | _ => none

/-! ## The entry points -/

/-- The function `nrf70_off_raw_tx_deinit`: two calls, no assignment. -/
def nrf70_off_raw_tx_deinit (g : Globals) : Effect :=
  { globals := g,
    trace := [Call.nrf_wifi_fmac_deinit_offloaded_raw_tx g.rpu_drv_priv_zep.fmac_priv,
              Call.nrf_wifi_osal_deinit] }

/-- The code at label `err` of `nrf70_off_raw_tx_init`, entered with the
current values of the locals `rpu_ctx` and `rpu_ctx_zep`, the globals and the
calls made so far.  `none` is a store through a null `rpu_ctx_zep`. -/
def nrf70_off_raw_tx_init_err (rpu_ctx rpu_ctx_zep : Ptr) (g : Globals)
    (tr : List Call) : Option Result :=
  if rpu_ctx ≠ Ptr.null then do
    let g1 ← store_rpu_ctx rpu_ctx_zep Ptr.null g
    let d := nrf70_off_raw_tx_deinit g1
    some { ret := -1, globals := d.globals,
           trace := tr ++ [Call.nrf_wifi_fmac_dev_rem_offloaded_raw_tx rpu_ctx] ++ d.trace }
  else
    let d := nrf70_off_raw_tx_deinit g
    some { ret := -1, globals := d.globals, trace := tr ++ d.trace }

/-- The function `nrf70_off_raw_tx_init`, statement by statement.  `o` holds
what the external functions return; `none` is an access through a null
`rpu_ctx_zep`. -/
def nrf70_off_raw_tx_init (o : InitOutcomes) (g0 : Globals) : Option Result :=
  let tr0 := [Call.nrf_wifi_osal_init Ptr.addr_nrf_wifi_os_zep_ops,
              Call.nrf_wifi_fmac_init_offloaded_raw_tx]
  let g1 := { g0 with off_raw_tx_drv_priv_zep := { fmac_priv := o.fmac_init } }
  if g1.off_raw_tx_drv_priv_zep.fmac_priv = Ptr.null then
    nrf70_off_raw_tx_init_err Ptr.null Ptr.null g1 (tr0 ++ [Call.LOG_ERR])
  else do
    let rpu_ctx_zep := Ptr.addr_rpu_ctx_zep
    let g2 ← store_drv_priv_zep rpu_ctx_zep Ptr.addr_off_raw_tx_priv g1
    let tr1 := tr0 ++ [Call.nrf_wifi_fmac_dev_add g2.off_raw_tx_drv_priv.fmac_priv rpu_ctx_zep]
    let rpu_ctx := o.dev_add
    if rpu_ctx = Ptr.null then
      nrf70_off_raw_tx_init_err rpu_ctx Ptr.null g2 (tr1 ++ [Call.LOG_ERR])
    else do
      let g3 ← store_rpu_ctx rpu_ctx_zep rpu_ctx g2
      let tr2 := tr1 ++ [Call.nrf_wifi_fw_load rpu_ctx]
      if o.fw_load ≠ NRF_WIFI_STATUS_SUCCESS then
        nrf70_off_raw_tx_init_err rpu_ctx rpu_ctx_zep g3 (tr2 ++ [Call.LOG_ERR])
      else
        let tr3 := tr2 ++ [Call.nrf_wifi_fmac_ver_get rpu_ctx]
        if o.ver_get ≠ NRF_WIFI_STATUS_SUCCESS then
          nrf70_off_raw_tx_init_err rpu_ctx rpu_ctx_zep g3 (tr3 ++ [Call.LOG_ERR])
        else do
          let arg ← load_rpu_ctx rpu_ctx_zep g3
          let tr4 := tr3 ++ [Call.LOG_DBG o.fw_ver, Call.configure_tx_pwr_settings,
                             Call.configure_board_dep_params,
                             Call.nrf_wifi_fmac_dev_init_offloaded_raw_tx arg]
          let status := o.dev_init
          if status ≠ NRF_WIFI_STATUS_SUCCESS then
            nrf70_off_raw_tx_init_err rpu_ctx rpu_ctx_zep g3 (tr4 ++ [Call.LOG_ERR])
          else
            some { ret := status, globals := g3, trace := tr4 }

/-- The function `nrf70_off_raw_tx_conf`; `svc` is what
`nrf_wifi_offloaded_raw_tx_conf` returns. -/
def nrf70_off_raw_tx_conf (conf : nrf_wifi_off_raw_tx_conf) (svc : Int) (g : Globals) : Result :=
  let tr := [Call.nrf_wifi_offloaded_raw_tx_conf g.off_raw_tx_drv_priv.rpu_ctx_zep.rpu_ctx conf]
  let status := svc
  if status ≠ NRF_WIFI_STATUS_SUCCESS then
    { ret := -1, globals := g, trace := tr ++ [Call.nrf_wifi_osal_log_err] }
  else
    { ret := 0, globals := g, trace := tr }

/-- The function `nrf70_off_raw_tx_start`; `svc` is what
`nrf_wifi_offloaded_raw_tx_start` returns. -/
def nrf70_off_raw_tx_start (svc : Int) (g : Globals) : Result :=
  let tr := [Call.nrf_wifi_offloaded_raw_tx_start g.off_raw_tx_drv_priv.rpu_ctx_zep.rpu_ctx]
  let status := svc
  if status ≠ NRF_WIFI_STATUS_SUCCESS then
    { ret := -1, globals := g, trace := tr ++ [Call.nrf_wifi_osal_log_err] }
  else
    { ret := 0, globals := g, trace := tr }

/-- The function `nrf70_off_raw_tx_stop`; `svc` is what
`nrf_wifi_offloaded_raw_tx_stop` returns. -/
def nrf70_off_raw_tx_stop (svc : Int) (g : Globals) : Result :=
  let tr := [Call.nrf_wifi_offloaded_raw_tx_stop g.off_raw_tx_drv_priv.rpu_ctx_zep.rpu_ctx]
  let status := svc
  if status ≠ NRF_WIFI_STATUS_SUCCESS then
    { ret := -1, globals := g, trace := tr ++ [Call.nrf_wifi_osal_log_err] }
  else
    { ret := 0, globals := g, trace := tr }

/-! ## Vocabulary of the properties -/

/-- Every fallible bring-up step succeeds: both handles are non-null and the
three statuses are `NRF_WIFI_STATUS_SUCCESS`. -/
def InitOutcomes.AllOk (o : InitOutcomes) : Prop :=
  o.fmac_init ≠ Ptr.null ∧ o.dev_add ≠ Ptr.null ∧
  o.fw_load = NRF_WIFI_STATUS_SUCCESS ∧ o.ver_get = NRF_WIFI_STATUS_SUCCESS ∧
  o.dev_init = NRF_WIFI_STATUS_SUCCESS

instance (o : InitOutcomes) : Decidable o.AllOk := by
  unfold InitOutcomes.AllOk; infer_instance

/-- Outcomes with which every bring-up step succeeds. -/
def InitOutcomes.good : InitOutcomes :=
  { fmac_init := Ptr.obj 1, dev_add := Ptr.obj 2, fw_load := 0, ver_get := 0,
    fw_ver := 0, dev_init := 0 }


/-- Outcomes with which `nrf_wifi_fmac_init_offloaded_raw_tx` fails. -/
def InitOutcomes.fmacInitFails : InitOutcomes :=
  { fmac_init := Ptr.null, dev_add := Ptr.obj 2, fw_load := 0, ver_get := 0,
    fw_ver := 0, dev_init := 0 }

/-- The six bring-up steps of `nrf70_off_raw_tx_init`. -/
inductive Step where
  | osal_init
  | fmac_init
  | dev_add
  | fw_load
  | ver_get
  | dev_init_offloaded_raw_tx
  deriving DecidableEq, Repr

/-- The bring-up step a call belongs to, if it is a bring-up call. -/
def Call.bringUpStep : Call → Option Step
  | Call.nrf_wifi_osal_init _ => some Step.osal_init
  | Call.nrf_wifi_fmac_init_offloaded_raw_tx => some Step.fmac_init
  | Call.nrf_wifi_fmac_dev_add _ _ => some Step.dev_add
  | Call.nrf_wifi_fw_load _ => some Step.fw_load
  | Call.nrf_wifi_fmac_ver_get _ => some Step.ver_get
  | Call.nrf_wifi_fmac_dev_init_offloaded_raw_tx _ => some Step.dev_init_offloaded_raw_tx
  | _ => none

/-- The bring-up steps of a trace, in the order they were called. -/
def bringUpSteps (tr : List Call) : List Step := tr.filterMap Call.bringUpStep

/-- The fixed order of the bring-up steps. -/
def fixedSequence : List Step :=
  [Step.osal_init, Step.fmac_init, Step.dev_add, Step.fw_load, Step.ver_get,
   Step.dev_init_offloaded_raw_tx]

/-- Whether a bring-up step succeeds under the given outcomes;
`nrf_wifi_osal_init` returns nothing and cannot fail. -/
def InitOutcomes.stepOk (o : InitOutcomes) : Step → Bool
  | Step.osal_init => true
  | Step.fmac_init => decide (o.fmac_init ≠ Ptr.null)
  | Step.dev_add => decide (o.dev_add ≠ Ptr.null)
  | Step.fw_load => decide (o.fw_load = NRF_WIFI_STATUS_SUCCESS)
  | Step.ver_get => decide (o.ver_get = NRF_WIFI_STATUS_SUCCESS)
  | Step.dev_init_offloaded_raw_tx => decide (o.dev_init = NRF_WIFI_STATUS_SUCCESS)

/-- The fail-fast reading of a step list, in the words of the specification:
steps are taken in order and the first one that fails is the last one taken. -/
def upToFirstFailure (ok : Step → Bool) : List Step → List Step
  | [] => []
  | s :: rest => if ok s then s :: upToFirstFailure ok rest else [s]

/-- The release calls: device removal, driver teardown, OSAL teardown. -/
def Call.isRelease : Call → Bool
  | Call.nrf_wifi_fmac_dev_rem_offloaded_raw_tx _ => true
  | Call.nrf_wifi_fmac_deinit_offloaded_raw_tx _ => true
  | Call.nrf_wifi_osal_deinit => true
  | _ => false

/-- The commands of the Raw-TX Command Service: configure, start, stop. -/
def Call.isRawTxCommand : Call → Bool
  | Call.nrf_wifi_offloaded_raw_tx_conf _ _ => true
  | Call.nrf_wifi_offloaded_raw_tx_start _ => true
  | Call.nrf_wifi_offloaded_raw_tx_stop _ => true
  | _ => false

/-- One of the three command entry points, with its argument. -/
inductive CmdOp where
  | conf (c : nrf_wifi_off_raw_tx_conf)
  | start
  | stop
  deriving DecidableEq, Repr

/-- Calls the entry point named by `op`; `svc` is what the command service
returns. -/
def CmdOp.call (op : CmdOp) (svc : Int) (g : Globals) : Result :=
  match op with
  | CmdOp.conf c => nrf70_off_raw_tx_conf c svc g
  | CmdOp.start => nrf70_off_raw_tx_start svc g
  | CmdOp.stop => nrf70_off_raw_tx_stop svc g

/-- One call of the public API together with what the external functions
return during it. -/
inductive ApiCall where
  | init (o : InitOutcomes)
  | deinit
  | cmd (op : CmdOp) (svc : Int)
  deriving DecidableEq, Repr

/-- Executes one API call: the value it returns (none for the `void`
`nrf70_off_raw_tx_deinit`) and the globals afterwards. -/
def ApiCall.exec (g : Globals) : ApiCall → Option (Option Int × Globals)
  | ApiCall.init o => (nrf70_off_raw_tx_init o g).map fun r => (some r.ret, r.globals)
  | ApiCall.deinit => some (none, (nrf70_off_raw_tx_deinit g).globals)
  | ApiCall.cmd op svc => some (some (op.call svc g).ret, (op.call svc g).globals)

/-- Executes a sequence of API calls from `g`: the globals at the end and the
value each call returned. -/
def run (g : Globals) : List ApiCall → Option (Globals × List (ApiCall × Option Int))
  | [] => some (g, [])
  | a :: rest =>
    match a.exec g with
    | none => none
    | some (ret, g1) =>
      match run g1 rest with
      | none => none
      | some (g2, log) => some (g2, (a, ret) :: log)

/-- The documented packet-length bound of the configuration record
(`min 26 bytes and max 600 bytes`). -/
def pkt_len_in_bounds (c : nrf_wifi_off_raw_tx_conf) : Prop :=
  26 ≤ c.pkt_len ∧ c.pkt_len ≤ 600

instance (c : nrf_wifi_off_raw_tx_conf) : Decidable (pkt_len_in_bounds c) := by
  unfold pkt_len_in_bounds; infer_instance

/-- A configuration record with the given packet length. -/
def confWithLen (n : Nat) : nrf_wifi_off_raw_tx_conf :=
  { period_us := 1000, chan := 1, short_preamble := false, num_retries := 0,
    tput_mode := nrf_wifi_off_raw_tx_tput_mode.TPUT_MODE_LEGACY,
    rate := nrf_wifi_off_raw_tx_rate.RATE_1M, he_gi_type := 0, he_ltf := 0,
    pkt := Ptr.obj 3, pkt_len := n }

/-- The globals after a successful bring-up from program start. -/
def Globals.ready : Globals :=
  { off_raw_tx_drv_priv :=
      { fmac_priv := Ptr.null,
        rpu_ctx_zep := { drv_priv_zep := Ptr.addr_off_raw_tx_priv, rpu_ctx := Ptr.obj 2 } },
    off_raw_tx_drv_priv_zep := { fmac_priv := Ptr.obj 1 },
    rpu_drv_priv_zep := { fmac_priv := Ptr.null } }

end OffRawTx

namespace OffRawTx

/-! ## Theorems -/

/-- C1: `nrf70_off_raw_tx_init` returns, its result is `0` exactly when every
fallible bring-up step succeeds, it is `-1` for every other combination of
outcomes, and so it is always `0` or `-1`. -/
theorem C1_init_ret_zero_iff_all_ok (o : InitOutcomes) (g : Globals) :
    ∃ r, nrf70_off_raw_tx_init o g = some r ∧
      (r.ret = 0 ↔ o.AllOk) ∧ (r.ret = -1 ↔ ¬ o.AllOk) ∧ (r.ret = 0 ∨ r.ret = -1) := by
  by_cases h1 : o.fmac_init = Ptr.null <;> by_cases h2 : o.dev_add = Ptr.null <;>
    by_cases h3 : o.fw_load = NRF_WIFI_STATUS_SUCCESS <;>
    by_cases h4 : o.ver_get = NRF_WIFI_STATUS_SUCCESS <;>
    by_cases h5 : o.dev_init = NRF_WIFI_STATUS_SUCCESS <;>
    simp [nrf70_off_raw_tx_init, nrf70_off_raw_tx_init_err, nrf70_off_raw_tx_deinit,
      store_drv_priv_zep, store_rpu_ctx, load_rpu_ctx, InitOutcomes.AllOk,
      h1, h2, h3, h4, h5]
  all_goals simp [NRF_WIFI_STATUS_SUCCESS]

/-- C2: for all outcomes the bring-up calls of `nrf70_off_raw_tx_init` are the
fixed sequence cut after the first step that fails: they are a prefix of the
fixed sequence, every step before the last one called succeeded, the last one
called failed unless every step succeeded, no step is called twice, and on
full success they are the whole sequence. -/
theorem C2_init_bring_up_fail_fast (o : InitOutcomes) (g : Globals) :
    ∃ r, nrf70_off_raw_tx_init o g = some r ∧
      bringUpSteps r.trace = upToFirstFailure o.stepOk fixedSequence ∧
      bringUpSteps r.trace <+: fixedSequence ∧
      (∀ s ∈ (bringUpSteps r.trace).dropLast, o.stepOk s = true) ∧
      (∀ s, (bringUpSteps r.trace).getLast? = some s → (o.stepOk s = false ↔ ¬ o.AllOk)) ∧
      (o.AllOk → bringUpSteps r.trace = fixedSequence) ∧
      (bringUpSteps r.trace).Nodup := by
  by_cases h1 : o.fmac_init = Ptr.null <;> by_cases h2 : o.dev_add = Ptr.null <;>
    by_cases h3 : o.fw_load = NRF_WIFI_STATUS_SUCCESS <;>
    by_cases h4 : o.ver_get = NRF_WIFI_STATUS_SUCCESS <;>
    by_cases h5 : o.dev_init = NRF_WIFI_STATUS_SUCCESS <;>
    simp [nrf70_off_raw_tx_init, nrf70_off_raw_tx_init_err, nrf70_off_raw_tx_deinit,
      store_drv_priv_zep, store_rpu_ctx, load_rpu_ctx, InitOutcomes.AllOk,
      bringUpSteps, Call.bringUpStep, upToFirstFailure, fixedSequence,
      InitOutcomes.stepOk, h1, h2, h3, h4, h5]

/-- On every failing bring-up the release calls are: the device removal, made
exactly when `nrf_wifi_fmac_dev_add` had returned a context, and then the two
calls of `nrf70_off_raw_tx_deinit`; these are the last calls of the trace.
The handle given to the driver teardown is the one `nrf70_off_raw_tx_deinit`
reads, `rpu_drv_priv_zep.fmac_priv`. -/
theorem init_failure_unwind (o : InitOutcomes) (g : Globals) (hfail : ¬ o.AllOk) :
    ∃ r, nrf70_off_raw_tx_init o g = some r ∧ r.ret = -1 ∧
      r.trace.filter Call.isRelease =
        (if o.fmac_init ≠ Ptr.null ∧ o.dev_add ≠ Ptr.null
          then [Call.nrf_wifi_fmac_dev_rem_offloaded_raw_tx o.dev_add] else []) ++
        (nrf70_off_raw_tx_deinit r.globals).trace ∧
      r.trace.filter Call.isRelease <:+ r.trace ∧
      (nrf70_off_raw_tx_deinit r.globals).trace =
        [Call.nrf_wifi_fmac_deinit_offloaded_raw_tx g.rpu_drv_priv_zep.fmac_priv,
         Call.nrf_wifi_osal_deinit] := by
  by_cases h1 : o.fmac_init = Ptr.null <;> by_cases h2 : o.dev_add = Ptr.null <;>
    by_cases h3 : o.fw_load = NRF_WIFI_STATUS_SUCCESS <;>
    by_cases h4 : o.ver_get = NRF_WIFI_STATUS_SUCCESS <;>
    by_cases h5 : o.dev_init = NRF_WIFI_STATUS_SUCCESS
  all_goals first
    | (exfalso; apply hfail; refine ⟨?_, ?_, ?_, ?_, ?_⟩ <;> assumption)
    | simp [nrf70_off_raw_tx_init, nrf70_off_raw_tx_init_err, nrf70_off_raw_tx_deinit,
        store_drv_priv_zep, store_rpu_ctx, load_rpu_ctx, Call.isRelease,
        List.suffix_cons_iff, h1, h2, h3, h4, h5]

/-- On full success the result is `0`, no release call is made, the context
returned by `nrf_wifi_fmac_dev_add` is stored in
`off_raw_tx_drv_priv.rpu_ctx_zep.rpu_ctx` and is the one given to the three
later steps; the handle returned by `nrf_wifi_fmac_init_offloaded_raw_tx` is
in `off_raw_tx_drv_priv_zep.fmac_priv`, while `off_raw_tx_drv_priv.fmac_priv`
keeps its old value, which is what `nrf_wifi_fmac_dev_add` is given. -/
theorem init_success_state (o : InitOutcomes) (g : Globals) (hok : o.AllOk) :
    nrf70_off_raw_tx_init o g = some
      { ret := NRF_WIFI_STATUS_SUCCESS,
        globals :=
          { off_raw_tx_drv_priv :=
              { fmac_priv := g.off_raw_tx_drv_priv.fmac_priv,
                rpu_ctx_zep := { drv_priv_zep := Ptr.addr_off_raw_tx_priv,
                                 rpu_ctx := o.dev_add } },
            off_raw_tx_drv_priv_zep := { fmac_priv := o.fmac_init },
            rpu_drv_priv_zep := g.rpu_drv_priv_zep },
        trace :=
          [Call.nrf_wifi_osal_init Ptr.addr_nrf_wifi_os_zep_ops,
           Call.nrf_wifi_fmac_init_offloaded_raw_tx,
           Call.nrf_wifi_fmac_dev_add g.off_raw_tx_drv_priv.fmac_priv Ptr.addr_rpu_ctx_zep,
           Call.nrf_wifi_fw_load o.dev_add,
           Call.nrf_wifi_fmac_ver_get o.dev_add,
           Call.LOG_DBG o.fw_ver,
           Call.configure_tx_pwr_settings,
           Call.configure_board_dep_params,
           Call.nrf_wifi_fmac_dev_init_offloaded_raw_tx o.dev_add] } := by
  obtain ⟨h1, h2, h3, h4, h5⟩ := hok
  simp [nrf70_off_raw_tx_init, store_drv_priv_zep, store_rpu_ctx, load_rpu_ctx,
    h1, h2, h3, h4, h5]

/-- C4, as stated, fails: a successful bring-up followed by
`nrf70_off_raw_tx_deinit` leaves the context `obj 2` stored, and a bring-up
from there that fails at its first fallible step returns `-1` with `obj 2`
still stored. -/
theorem C4_counterexample :
    run Globals.zeroed [ApiCall.init InitOutcomes.good, ApiCall.deinit] =
      some (Globals.ready,
        [(ApiCall.init InitOutcomes.good, some 0), (ApiCall.deinit, none)]) ∧
    (nrf70_off_raw_tx_init InitOutcomes.fmacInitFails Globals.ready).map
        (fun r => (r.ret, r.globals.off_raw_tx_drv_priv.rpu_ctx_zep.rpu_ctx)) =
      some (-1, Ptr.obj 2) ∧
    Ptr.obj 2 ≠ Ptr.null := by
  decide

/-- C4, amended: whenever some bring-up step fails, `nrf70_off_raw_tx_init`
returns `-1` and the stored context handle is null if
`nrf_wifi_fmac_dev_add` had returned a context in this call, and otherwise is
what was stored before the call. -/
theorem C4_init_failure_rpu_ctx (o : InitOutcomes) (g : Globals) (hfail : ¬ o.AllOk) :
    ∃ r, nrf70_off_raw_tx_init o g = some r ∧ r.ret = -1 ∧
      r.globals.off_raw_tx_drv_priv.rpu_ctx_zep.rpu_ctx =
        (if o.fmac_init ≠ Ptr.null ∧ o.dev_add ≠ Ptr.null then Ptr.null
         else g.off_raw_tx_drv_priv.rpu_ctx_zep.rpu_ctx) := by
  by_cases h1 : o.fmac_init = Ptr.null <;> by_cases h2 : o.dev_add = Ptr.null <;>
    by_cases h3 : o.fw_load = NRF_WIFI_STATUS_SUCCESS <;>
    by_cases h4 : o.ver_get = NRF_WIFI_STATUS_SUCCESS <;>
    by_cases h5 : o.dev_init = NRF_WIFI_STATUS_SUCCESS
  all_goals first
    | (exfalso; apply hfail; refine ⟨?_, ?_, ?_, ?_, ?_⟩ <;> assumption)
    | simp [nrf70_off_raw_tx_init, nrf70_off_raw_tx_init_err, nrf70_off_raw_tx_deinit,
        store_drv_priv_zep, store_rpu_ctx, load_rpu_ctx, h1, h2, h3, h4, h5]

/-- C4, amended, at a concrete input: firmware load fails after a context
was obtained, from zeroed globals. -/
theorem C4_init_failure_rpu_ctx_witness :
    ¬ ({ fmac_init := Ptr.obj 1, dev_add := Ptr.obj 2, fw_load := -1, ver_get := 0,
         fw_ver := 0, dev_init := 0 } : InitOutcomes).AllOk ∧
    ∃ r, nrf70_off_raw_tx_init
        { fmac_init := Ptr.obj 1, dev_add := Ptr.obj 2, fw_load := -1, ver_get := 0,
          fw_ver := 0, dev_init := 0 } Globals.zeroed = some r ∧ r.ret = -1 ∧
      r.globals.off_raw_tx_drv_priv.rpu_ctx_zep.rpu_ctx =
        (if (Ptr.obj 1 ≠ Ptr.null ∧ Ptr.obj 2 ≠ Ptr.null) then Ptr.null
         else Globals.zeroed.off_raw_tx_drv_priv.rpu_ctx_zep.rpu_ctx) :=
  ⟨by decide, C4_init_failure_rpu_ctx _ Globals.zeroed (by decide)⟩

/-- C5: a failing input.  From zeroed globals with every step succeeding
(driver handle `obj 1`, context `obj 2`), `nrf70_off_raw_tx_init` returns `0`
with the context `obj 2` stored and given to the three later steps, but
`off_raw_tx_drv_priv.fmac_priv` is still null and null is what
`nrf_wifi_fmac_dev_add` was given: the handle `obj 1` went to
`off_raw_tx_drv_priv_zep.fmac_priv`. -/
theorem C5_success_leaves_fmac_priv_null :
    nrf70_off_raw_tx_init InitOutcomes.good Globals.zeroed = some
      { ret := 0,
        globals := Globals.ready,
        trace :=
          [Call.nrf_wifi_osal_init Ptr.addr_nrf_wifi_os_zep_ops,
           Call.nrf_wifi_fmac_init_offloaded_raw_tx,
           Call.nrf_wifi_fmac_dev_add Ptr.null Ptr.addr_rpu_ctx_zep,
           Call.nrf_wifi_fw_load (Ptr.obj 2),
           Call.nrf_wifi_fmac_ver_get (Ptr.obj 2),
           Call.LOG_DBG 0,
           Call.configure_tx_pwr_settings,
           Call.configure_board_dep_params,
           Call.nrf_wifi_fmac_dev_init_offloaded_raw_tx (Ptr.obj 2)] } ∧
    Globals.ready.off_raw_tx_drv_priv.fmac_priv = Ptr.null ∧
    Globals.ready.off_raw_tx_drv_priv_zep.fmac_priv = Ptr.obj 1 ∧
    Globals.ready.off_raw_tx_drv_priv.rpu_ctx_zep.rpu_ctx = Ptr.obj 2 := by
  decide

/-- C6, as stated, fails: after a successful bring-up from zeroed globals,
`nrf70_off_raw_tx_deinit` leaves the context `obj 2` and the driver handle
`obj 1` stored, both non-null. -/
theorem C6_counterexample :
    (nrf70_off_raw_tx_init InitOutcomes.good Globals.zeroed).map (fun r => r.globals) =
      some Globals.ready ∧
    (nrf70_off_raw_tx_deinit Globals.ready).globals.off_raw_tx_drv_priv.rpu_ctx_zep.rpu_ctx =
      Ptr.obj 2 ∧
    (nrf70_off_raw_tx_deinit Globals.ready).globals.off_raw_tx_drv_priv_zep.fmac_priv =
      Ptr.obj 1 ∧
    Ptr.obj 2 ≠ Ptr.null ∧ Ptr.obj 1 ≠ Ptr.null := by
  decide

/-- C6, amended: `nrf70_off_raw_tx_deinit` makes the driver teardown call and
then the OSAL teardown call and assigns nothing: the globals, and with them
every stored handle, are after the call what they were before. -/
theorem C6_deinit_keeps_globals (g : Globals) :
    (nrf70_off_raw_tx_deinit g).globals = g ∧
    (nrf70_off_raw_tx_deinit g).globals.off_raw_tx_drv_priv.rpu_ctx_zep.rpu_ctx =
      g.off_raw_tx_drv_priv.rpu_ctx_zep.rpu_ctx ∧
    (nrf70_off_raw_tx_deinit g).globals.off_raw_tx_drv_priv.fmac_priv =
      g.off_raw_tx_drv_priv.fmac_priv ∧
    (nrf70_off_raw_tx_deinit g).trace =
      [Call.nrf_wifi_fmac_deinit_offloaded_raw_tx g.rpu_drv_priv_zep.fmac_priv,
       Call.nrf_wifi_osal_deinit] := by
  simp [nrf70_off_raw_tx_deinit]

/-- C7: each of `nrf70_off_raw_tx_conf`, `nrf70_off_raw_tx_start` and
`nrf70_off_raw_tx_stop` sends exactly one command to the command service, its
own, on the stored context handle (configure with the caller's record
unchanged), followed only by an error log when the command failed; it returns
`0` exactly when the command returned `NRF_WIFI_STATUS_SUCCESS` and `-1`
exactly when it did not. -/
theorem C7_cmd_forwards_once (c : nrf_wifi_off_raw_tx_conf) (svc : Int) (g : Globals) :
    ((nrf70_off_raw_tx_conf c svc g).trace.filter Call.isRawTxCommand =
        [Call.nrf_wifi_offloaded_raw_tx_conf g.off_raw_tx_drv_priv.rpu_ctx_zep.rpu_ctx c] ∧
      (nrf70_off_raw_tx_conf c svc g).trace =
        Call.nrf_wifi_offloaded_raw_tx_conf g.off_raw_tx_drv_priv.rpu_ctx_zep.rpu_ctx c ::
          (if svc ≠ NRF_WIFI_STATUS_SUCCESS then [Call.nrf_wifi_osal_log_err] else []) ∧
      ((nrf70_off_raw_tx_conf c svc g).ret = 0 ↔ svc = NRF_WIFI_STATUS_SUCCESS) ∧
      ((nrf70_off_raw_tx_conf c svc g).ret = -1 ↔ svc ≠ NRF_WIFI_STATUS_SUCCESS)) ∧
    ((nrf70_off_raw_tx_start svc g).trace.filter Call.isRawTxCommand =
        [Call.nrf_wifi_offloaded_raw_tx_start g.off_raw_tx_drv_priv.rpu_ctx_zep.rpu_ctx] ∧
      (nrf70_off_raw_tx_start svc g).trace =
        Call.nrf_wifi_offloaded_raw_tx_start g.off_raw_tx_drv_priv.rpu_ctx_zep.rpu_ctx ::
          (if svc ≠ NRF_WIFI_STATUS_SUCCESS then [Call.nrf_wifi_osal_log_err] else []) ∧
      ((nrf70_off_raw_tx_start svc g).ret = 0 ↔ svc = NRF_WIFI_STATUS_SUCCESS) ∧
      ((nrf70_off_raw_tx_start svc g).ret = -1 ↔ svc ≠ NRF_WIFI_STATUS_SUCCESS)) ∧
    ((nrf70_off_raw_tx_stop svc g).trace.filter Call.isRawTxCommand =
        [Call.nrf_wifi_offloaded_raw_tx_stop g.off_raw_tx_drv_priv.rpu_ctx_zep.rpu_ctx] ∧
      (nrf70_off_raw_tx_stop svc g).trace =
        Call.nrf_wifi_offloaded_raw_tx_stop g.off_raw_tx_drv_priv.rpu_ctx_zep.rpu_ctx ::
          (if svc ≠ NRF_WIFI_STATUS_SUCCESS then [Call.nrf_wifi_osal_log_err] else []) ∧
      ((nrf70_off_raw_tx_stop svc g).ret = 0 ↔ svc = NRF_WIFI_STATUS_SUCCESS) ∧
      ((nrf70_off_raw_tx_stop svc g).ret = -1 ↔ svc ≠ NRF_WIFI_STATUS_SUCCESS)) := by
  by_cases h : svc = NRF_WIFI_STATUS_SUCCESS <;>
    simp [nrf70_off_raw_tx_conf, nrf70_off_raw_tx_start, nrf70_off_raw_tx_stop,
      Call.isRawTxCommand, h]

/-- C9, as stated, fails: with a command service that accepts them,
configurations with packet length 25 and 601, both outside the bound, make
`nrf70_off_raw_tx_conf` return `0`. -/
theorem C9_counterexample :
    ¬ pkt_len_in_bounds (confWithLen 25) ∧
    (nrf70_off_raw_tx_conf (confWithLen 25) NRF_WIFI_STATUS_SUCCESS Globals.ready).ret = 0 ∧
    ¬ pkt_len_in_bounds (confWithLen 601) ∧
    (nrf70_off_raw_tx_conf (confWithLen 601) NRF_WIFI_STATUS_SUCCESS Globals.ready).ret = 0 := by
  decide

/-- C9, amended: `nrf70_off_raw_tx_conf` does not look at the packet length.
For every configuration it returns `-1` exactly when the configure command of
the command service does not return `NRF_WIFI_STATUS_SUCCESS`, changing the
packet length alone never changes the result, the record reaches the command
service with its packet length as given, and with a command service that
accepts the configuration the result is `0`, in particular for every packet
length within the bound. -/
theorem C9_conf_ret_ignores_pkt_len (c : nrf_wifi_off_raw_tx_conf) (n : Nat) (svc : Int)
    (g : Globals) :
    ((nrf70_off_raw_tx_conf c svc g).ret = -1 ↔ svc ≠ NRF_WIFI_STATUS_SUCCESS) ∧
    (nrf70_off_raw_tx_conf { c with pkt_len := n } svc g).ret =
      (nrf70_off_raw_tx_conf c svc g).ret ∧
    (nrf70_off_raw_tx_conf c svc g).trace.filter Call.isRawTxCommand =
      [Call.nrf_wifi_offloaded_raw_tx_conf g.off_raw_tx_drv_priv.rpu_ctx_zep.rpu_ctx c] ∧
    (nrf70_off_raw_tx_conf c NRF_WIFI_STATUS_SUCCESS g).ret = 0 ∧
    (pkt_len_in_bounds c → (nrf70_off_raw_tx_conf c NRF_WIFI_STATUS_SUCCESS g).ret = 0) := by
  by_cases hs : svc = NRF_WIFI_STATUS_SUCCESS <;>
    simp [nrf70_off_raw_tx_conf, Call.isRawTxCommand, hs]

/-- C10: a call of `nrf70_off_raw_tx_conf`, `nrf70_off_raw_tx_start` or
`nrf70_off_raw_tx_stop` that returns `-1` leaves the globals as they were; in
particular the driver record `off_raw_tx_drv_priv` (its `fmac_priv`,
`rpu_ctx_zep.drv_priv_zep` and `rpu_ctx_zep.rpu_ctx`) is unchanged. -/
theorem C10_failed_cmd_keeps_record (op : CmdOp) (svc : Int) (g : Globals)
    (hfail : (op.call svc g).ret = -1) :
    (op.call svc g).globals = g ∧
    (op.call svc g).globals.off_raw_tx_drv_priv = g.off_raw_tx_drv_priv := by
  cases op <;> by_cases hs : svc = NRF_WIFI_STATUS_SUCCESS <;>
    simp [CmdOp.call, nrf70_off_raw_tx_conf, nrf70_off_raw_tx_start,
      nrf70_off_raw_tx_stop, hs]

/-- C10 at a concrete input: a rejected start command after a successful
bring-up. -/
theorem C10_failed_cmd_keeps_record_witness :
    (CmdOp.start.call NRF_WIFI_STATUS_FAIL Globals.ready).ret = -1 ∧
    (CmdOp.start.call NRF_WIFI_STATUS_FAIL Globals.ready).globals = Globals.ready ∧
    (CmdOp.start.call NRF_WIFI_STATUS_FAIL Globals.ready).globals.off_raw_tx_drv_priv =
      Globals.ready.off_raw_tx_drv_priv :=
  ⟨by decide, C10_failed_cmd_keeps_record CmdOp.start NRF_WIFI_STATUS_FAIL Globals.ready
    (by decide)⟩

end OffRawTx
